import Mathlib

/-!
Verification of the client-side PDF report-export pipeline of the
AI-regulation analytics dashboard.

The development shallowly embeds the two export entry points of the
repository:

* `exportCurrentPanel` (frontend `ExportReport` component): finds the
  visible chart container, draws a report header, then for each chart
  draws a heading, a rasterized image, and reflowed AI-insight text into
  an A4 page stream, with per-chart failure isolation.
* `generatePDFReport` (export-utils module): iterates over a list of
  identified sections, skipping missing/invisible DOM elements, drawing
  a heading and a width-scaled image per captured section, and saving
  the document even when nothing was captured.

DOM lookups, `html2canvas` rasterization, and the insight HTTP call are
modelled as explicit inputs (`Except`/`Option` valued); `jsPDF` drawing
calls are modelled as emission of `Placed` blocks recording the block
kind, the page index and the vertical position at which the call was
made. A4 geometry is modelled as exactly 210mm x 297mm.  Text wrapping
(`pdf.splitTextToSize`) is an external library call and is taken as a
function parameter.
-/

namespace RegAnalytics

/-! ## JavaScript string primitives used by the export code -/

/-- Whitespace test covering the characters JS `trim` / `\s` handle in
the strings this pipeline sees. -/
def isWsChar (c : Char) : Bool :=
  c = ' ' || c = '\n' || c = '\t' || c = '\r'

def dropLeadingWs : List Char → List Char
  | [] => []
  | c :: cs => if isWsChar c then dropLeadingWs cs else c :: cs

/-- JS `String.prototype.trim`. -/
def jsTrim (s : String) : String :=
  ⟨(dropLeadingWs (dropLeadingWs s.data.reverse).reverse)⟩

/-- JS global regex replacement of each (leftmost, non-overlapping)
pair of asterisks by the empty string. -/
def stripDoubleStar : List Char → List Char
  | '*' :: '*' :: cs => stripDoubleStar cs
  | c :: cs => c :: stripDoubleStar cs
  | [] => []

/-- JS global regex replacement of every asterisk by the empty string. -/
def stripStar : List Char → List Char
  | [] => []
  | c :: cs => if c = '*' then stripStar cs else c :: stripStar cs

/-- JS `String.prototype.split` at newline characters (the empty string
splits to a single empty piece). -/
def splitNl : List Char → List (List Char)
  | [] => [[]]
  | c :: cs =>
    if c = '\n' then [] :: splitNl cs
    else
      match splitNl cs with
      | l :: ls => (c :: l) :: ls
      | [] => [[c]]

def splitLines (s : String) : List String :=
  (splitNl s.data).map (⟨·⟩)

/-- JS global regex replacement of whitespace runs by underscores, used
for file names: each maximal whitespace run becomes a single underscore.
The flag records whether the previous character was whitespace. -/
def slugAux : Bool → List Char → List Char
  | _, [] => []
  | prevWs, c :: cs =>
    if isWsChar c then
      if prevWs then slugAux true cs else '_' :: slugAux true cs
    else c :: slugAux false cs

def slug (s : String) : String := ⟨slugAux false s.data⟩

/-- First piece of a JS split at the letter T, applied to an ISO
timestamp to get its date part. -/
def beforeChar (stop : Char) : List Char → List Char
  | [] => []
  | c :: cs => if c = stop then [] else c :: beforeChar stop cs

def datePart (now : String) : String := ⟨beforeChar 'T' now.data⟩

/-- JS `x?.textContent?.trim() || dflt` idiom (empty trimmed text is
falsy and falls back to the default). -/
def textOr (t : Option String) (dflt : String) : String :=
  match t with
  | some s => if jsTrim s = "" then dflt else jsTrim s
  | none => dflt

/-- JS truthiness of an optional string parameter (`undefined` and `""`
are falsy). -/
def jsTruthy : Option String → Bool
  | some s => decide (s ≠ "")
  | none => false

/-! ## Shared data model of the export pipeline -/

/-- Result of a successful `html2canvas` call: a bitmap with intrinsic
pixel dimensions. -/
structure Canvas where
  width : ℚ
  height : ℚ
  data : String
deriving Repr, DecidableEq

/-- One drawing primitive issued against the jsPDF document.  Each
constructor corresponds to one `pdf.text`/`pdf.addImage`/`pdf.rect`/
`pdf.line` call site of the source. -/
inductive BlockKind where
  | docTitle (text : String)
  | tabTitle (text : String)
  | genLine (text : String)
  | periodLine (text : String)
  | chartHeading (text : String)
  | sectionHeading (text : String)
  | image (data : String) (w h : ℚ)
  | grayRect
  | insightsHeader
  | insightHeadline (text : String)
  | insightText (text : String)
  | separator
  | metaLine (text : String)
  | errorNote (text : String)
  | noChartsLine (text : String)
deriving Repr, DecidableEq

/-- A drawing call together with the page index and the `yPosition` at
which it was issued. -/
structure Placed where
  kind : BlockKind
  page : ℕ
  y : ℚ
deriving Repr, DecidableEq

/-- A4 page width in mm as reported by `pdf.internal.pageSize.getWidth()`. -/
def pageWidthMm : ℚ := 210

/-- A4 page height in mm as reported by `pdf.internal.pageSize.getHeight()`. -/
def pageHeightMm : ℚ := 297

/-- JS `Math.min` on the rationals used for the chart-height clamp. -/
def ratMin (a b : ℚ) : ℚ := if a ≤ b then a else b

/-! Rational arithmetic is written through the following four wrappers,
which build the result directly with `Rat.divInt` from numerators and
denominators.  They are provably equal to the field operations of `ℚ`
(see the bridge lemmas right below) and keep every concrete run of the
model computable by kernel reduction. -/

def qadd (a b : ℚ) : ℚ :=
  Rat.divInt (a.num * b.den + b.num * a.den) (a.den * b.den)

def qsub (a b : ℚ) : ℚ :=
  Rat.divInt (a.num * b.den - b.num * a.den) (a.den * b.den)

def qmul (a b : ℚ) : ℚ := Rat.divInt (a.num * b.num) (a.den * b.den)

def qdiv (a b : ℚ) : ℚ := Rat.divInt (a.num * b.den) (a.den * b.num)

theorem qadd_eq (a b : ℚ) : qadd a b = a + b := by
  rw [qadd]
  conv_rhs => rw [← Rat.num_divInt_den a, ← Rat.num_divInt_den b]
  rw [Rat.divInt_add_divInt _ _
    (by exact_mod_cast a.den_nz) (by exact_mod_cast b.den_nz)]

theorem qsub_eq (a b : ℚ) : qsub a b = a - b := by
  rw [qsub]
  conv_rhs => rw [← Rat.num_divInt_den a, ← Rat.num_divInt_den b]
  rw [Rat.divInt_sub_divInt _ _
    (by exact_mod_cast a.den_nz) (by exact_mod_cast b.den_nz)]

theorem qmul_eq (a b : ℚ) : qmul a b = a * b := by
  rw [qmul]
  conv_rhs => rw [← Rat.num_divInt_den a, ← Rat.num_divInt_den b]
  rw [Rat.divInt_mul_divInt']

theorem qdiv_eq (a b : ℚ) : qdiv a b = a / b := by
  rw [qdiv]
  conv_rhs => rw [← Rat.num_divInt_den a, ← Rat.num_divInt_den b]
  rw [Rat.divInt_div_divInt]

/-! ## Insight text fetcher (`generateAIInsights`, ExportReport component)

The HTTP response is modelled as `Except err (Option insights)`: a
network/service error, or a response whose `insights` field may be
absent. -/

/-- Shallow embedding of `generateAIInsights`: on a successful response
it returns the `insights` field of the response body, falling back (via
JS truthiness, so also for a missing or empty field) to the fixed string
"Analysis unavailable for this chart."; on a thrown error it logs and
returns a different fixed string. -/
def generateAIInsights (resp : Except String (Option String)) : String :=
  match resp with
  | .ok ins =>
    match ins with
    | some s => if s = "" then "Analysis unavailable for this chart." else s
    | none => "Analysis unavailable for this chart."
  | .error _ => "Unable to generate insights at this time."

/-! ## Scoped hide/restore of export buttons during capture

`exportCurrentPanel` and `exportWholeDashboard` hide the export buttons
inside the chart card before calling `html2canvas` and restore them
after the call returns.  A button is represented by its inline
`style.display` string. -/

/-- The hide pass: every button whose display is not already `"none"` is
pushed onto `hiddenElements` and gets its display set to "none". -/
def hideButtons (ds : List String) : List String :=
  ds.map fun d => if d ≠ "none" then "none" else d

/-- The restore pass: every button that was recorded as hidden (i.e.
whose pre-capture display was not "none") gets its display set to the
empty string, which is how the source restores visibility. -/
def restoreButtons (pre cur : List String) : List String :=
  List.zipWith (fun p c => if p ≠ "none" then "" else c) pre cur

/-- Net effect of the capture step on the button display styles: the
restore pass runs only when `html2canvas` returned normally; when it
throws, control jumps to the `catch` and the buttons stay hidden. -/
def captureButtons (ds : List String) (cap : Except String Canvas) : List String :=
  match cap with
  | .ok _ => restoreButtons ds (hideButtons ds)
  | .error _ => hideButtons ds

/-! ## Document compositor for `exportCurrentPanel` (ExportReport component)

The per-chart loop carries `yPosition`, the current page index, and the
`processedCharts` identity set.  Drawing is modelled writer-style: each
step returns the updated cursor together with the blocks it emitted, so
that the emitted stream of the whole loop is by construction the
concatenation of the per-step streams. -/

/-- Cursor state of the jsPDF document during `exportCurrentPanel`:
`yPosition`, the current page, and the set of already-processed chart
parent cards (by identity). -/
structure Core where
  y : ℚ
  page : ℕ
  processed : List ℕ
deriving Repr, DecidableEq

/-- Record one drawing call at the current cursor. -/
def put (c : Core) (k : BlockKind) : Placed := ⟨k, c.page, c.y⟩

/-- Record one drawing call at an explicit `y` (used for the gray
background rect drawn at `yPosition - 3`). -/
def putAt (c : Core) (k : BlockKind) (yv : ℚ) : Placed := ⟨k, c.page, yv⟩

/-- Advance `yPosition`. -/
def bump (c : Core) (d : ℚ) : Core := { c with y := qadd c.y d }

/-- Model of `pdf.addPage(); yPosition = 20`. -/
def newPage (c : Core) : Core := { c with page := c.page + 1, y := 20 }

/-- One chart element of the active container, as queried from the DOM:
the identity of its enclosing card as found by `closest` (`none`
when absent), whether the card holds a KPI grid, the text of its title
element, the display styles of the export buttons inside the card, the
outcome of `html2canvas` on it, and the insight-service response for
it. -/
structure ChartEl where
  parentId : Option ℕ
  hasKPI : Bool
  titleText : Option String
  buttons : List String
  capture : Except String Canvas
  insightsResp : Except String (Option String)
deriving Repr

/-- `imgWidth = pageWidth - 30` used for chart images in
`exportCurrentPanel`. -/
def panelImgWidth : ℚ := qsub pageWidthMm 30

/-- Height at which a captured chart is drawn by `exportCurrentPanel`:
the width-proportional height `canvas.height * imgWidth / canvas.width`
clamped by `Math.min(imgHeight, 120)`. -/
def panelDrawnHeight (cv : Canvas) : ℚ :=
  ratMin (qdiv (qmul cv.height panelImgWidth) cv.width) 120

/-- Marker cleanup applied to the fetched insight text before layout:
the double-asterisk replacement, then the single-asterisk replacement,
then a trim, exactly as chained in the source. -/
def cleanInsights (s : String) : String :=
  jsTrim ⟨stripStar (stripDoubleStar s.data)⟩

/-- Header-line test of the insight layout loop: the trimmed line ends
with a colon, is shorter than 50 characters, and holds no period (ASCII
text assumed, so JS length agrees with the character count). -/
def isHeaderLine (t : String) : Bool :=
  decide (t.data.getLast? = some ':') && decide (t.data.length < 50)
    && !(t.data.contains '.')

/-- Inner loop over the width-wrapped pieces of one paragraph line: page
break when `yPosition > pageHeight - 15`, draw, advance by 5. -/
def drawWrapped (c : Core) : List String → Core × List Placed
  | [] => (c, [])
  | tl :: rest =>
    let c1 := if c.y > qsub pageHeightMm 15 then newPage c else c
    let pl := put c1 (.insightText tl)
    let out := drawWrapped (bump c1 5) rest
    (out.1, pl :: out.2)

/-- Layout of one raw insight line: page break when `yPosition >
pageHeight - 15`; an empty trimmed line only advances by 2; a header
line is drawn bold and advances by 6; any other line is wrapped to the
printable width by `pdf.splitTextToSize` (the `wrap` parameter) and
drawn piece by piece, then advances by 3. -/
def drawLine (wrap : String → List String) (c : Core) (line : String) :
    Core × List Placed :=
  let c1 := if c.y > qsub pageHeightMm 15 then newPage c else c
  let t := jsTrim line
  if t = "" then (bump c1 2, [])
  else if isHeaderLine t then (bump c1 6, [put c1 (.insightHeadline t)])
  else
    let out := drawWrapped c1 (wrap t)
    (bump out.1 3, out.2)

/-- Sequential layout of all insight lines. -/
def drawLines (wrap : String → List String) (c : Core) :
    List String → Core × List Placed
  | [] => (c, [])
  | l :: ls =>
    let a := drawLine wrap c l
    let b := drawLines wrap a.1 ls
    (b.1, a.2 ++ b.2)

/-- Output of processing one chart (or a list of charts): final cursor,
emitted blocks, final button display styles per captured card, and
console log entries. -/
structure COut where
  core : Core
  blocks : List Placed
  btns : List (List String)
  log : List String
deriving Repr, DecidableEq

/-- Shallow embedding of the per-chart body of `exportCurrentPanel`:
skip when no parent card is found, when the card was already processed,
or when it is a KPI card; otherwise pre-break when `yPosition >
pageHeight - 120`, draw the title, then inside `try`: hide the export
buttons, capture, restore the buttons, scale and draw the image (with
its own page-break check against `pageHeight - 50`), draw the insights
header and the reflowed insight text, and a separator line.  A capture
error is caught and logged; the buttons stay hidden and nothing after
the capture call runs for that chart. -/
def panelChartDraw (wrap : String → List String) (c0 : Core) (ch : ChartEl) :
    COut :=
  let title := textOr ch.titleText "Chart"
  let c1 := if c0.y > qsub pageHeightMm 120 then newPage c0 else c0
  let hb := put c1 (.chartHeading title)
  let c2 := bump c1 10
  match ch.capture with
  | .error e =>
    ⟨c2, [hb], [hideButtons ch.buttons], ["Failed to capture chart: " ++ e]⟩
  | .ok cv =>
    let finalBtns := restoreButtons ch.buttons (hideButtons ch.buttons)
    let minH := panelDrawnHeight cv
    let c3 := if qadd c2.y minH > qsub pageHeightMm 50 then newPage c2 else c2
    let ib := put c3 (.image cv.data panelImgWidth minH)
    let c4 := bump c3 (qadd minH 10)
    let gb := putAt c4 .grayRect (qsub c4.y 3)
    let kb := put c4 .insightsHeader
    let c5 := bump c4 7
    let insights := generateAIInsights ch.insightsResp
    let body := drawLines wrap c5 (splitLines (cleanInsights insights))
    let c6 := bump body.1 2
    let sb := put c6 .separator
    let c7 := bump c6 10
    ⟨c7, [hb, ib, gb, kb] ++ body.2 ++ [sb], [finalBtns], []⟩

def panelChart (wrap : String → List String) (c : Core) (ch : ChartEl) : COut :=
  match ch.parentId with
  | none => ⟨c, [], [], []⟩
  | some pid =>
    if c.processed.contains pid then ⟨c, [], [], []⟩
    else if ch.hasKPI then ⟨c, [], [], []⟩
    else panelChartDraw wrap { c with processed := c.processed ++ [pid] } ch

/-- Sequential processing of the chart list found in the active
container. -/
def runCharts (wrap : String → List String) (c : Core) : List ChartEl → COut
  | [] => ⟨c, [], [], []⟩
  | ch :: rest =>
    let a := panelChart wrap c ch
    let b := runCharts wrap a.core rest
    ⟨b.core, a.blocks ++ b.blocks, a.btns ++ b.btns, a.log ++ b.log⟩

/-- Report header of `exportCurrentPanel`: main title at `y = 20`, tab
name at 30, generation timestamp at 38, the optional period line at 43,
then `yPosition += 15`. -/
def panelHeader (tabName : String) (hasDR : Bool) (df dt now : String) :
    Core × List Placed :=
  let c0 : Core := ⟨20, 0, []⟩
  let b1 := put c0 (.docTitle "AI Regulation Analytics Report")
  let c1 := bump c0 10
  let b2 := put c1 (.tabTitle tabName)
  let c2 := bump c1 8
  let b3 := put c2 (.genLine ("Generated: " ++ now))
  let step :=
    if hasDR then
      let c3 := bump c2 5
      (c3, [put c3 (.periodLine ("Period: " ++ df ++ " to " ++ dt))])
    else (c2, ([] : List Placed))
  (bump step.1 15, [b1, b2, b3] ++ step.2)

/-- One candidate container from the query over the main content
element, with its bounding rectangle and the charts inside it. -/
structure Container where
  width : ℚ
  height : ℚ
  charts : List ChartEl

/-- Result of one `exportCurrentPanel` invocation. -/
structure PanelOut where
  alerted : Option String
  saved : Option String
  pages : ℕ
  blocks : List Placed
  btns : List (List String)
  log : List String

/-- Shallow embedding of `exportCurrentPanel`: find the first container
with a nonzero bounding rectangle (`rect.height > 0 && rect.width > 0`);
when none exists, alert and produce no file; otherwise compose header
and charts and save the document under a tab- and date-derived name. -/
def exportCurrentPanel (wrap : String → List String)
    (containers : List Container) (tabText : Option String)
    (dateFrom dateTo : Option String) (now : String) : PanelOut :=
  match containers.find? (fun c => decide (0 < c.height) && decide (0 < c.width)) with
  | none =>
    ⟨some "No active panel found. Please make sure you are viewing a tab with charts.",
     none, 0, [], [], []⟩
  | some cont =>
    let tabName := textOr tabText "Current Panel"
    let hasDR := jsTruthy dateFrom && jsTruthy dateTo
    let hdr := panelHeader tabName hasDR (dateFrom.getD "") (dateTo.getD "") now
    let r := runCharts wrap hdr.1 cont.charts
    ⟨none,
     some ("AI_Regulation_" ++ slug tabName ++ "_" ++ datePart now ++ ".pdf"),
     r.core.page + 1, hdr.2 ++ r.blocks, r.btns, r.log⟩

/-! ## Report generator `generatePDFReport` (export-utils module)

It iterates over an explicit section list `{id, title}[]`, looks each id
up in the DOM, skips missing or zero-sized elements with a console
warning, captures the rest, and draws a heading plus a width-scaled
image per captured section (with an error placeholder on capture
failure).  The document is saved even when nothing was captured. -/

/-- One section passed to `generatePDFReport`. -/
structure RSection where
  id : String
  title : String
deriving Repr, DecidableEq

/-- Bounding rectangle of a DOM element
(`element.getBoundingClientRect()`). -/
structure Rect where
  width : ℚ
  height : ℚ
deriving Repr, DecidableEq

/-- The DOM and rasterizer as seen by `generatePDFReport`:
`document.getElementById` and `html2canvas` per section id. -/
structure DomEnv where
  element : String → Option Rect
  capture : String → Except String Canvas

/-- Optional metadata argument of `generatePDFReport`. -/
structure Metadata where
  dateRange : Option String
  totalDocs : Option ℕ
deriving Repr, DecidableEq

/-- Cursor state of the report document: `yPosition`, page index and
`capturedCount`. -/
structure RCore where
  y : ℚ
  page : ℕ
  captured : ℕ
deriving Repr, DecidableEq

def rput (c : RCore) (k : BlockKind) : Placed := ⟨k, c.page, c.y⟩

def rbump (c : RCore) (d : ℚ) : RCore := { c with y := qadd c.y d }

def rNewPage (c : RCore) : RCore := { c with page := c.page + 1, y := 20 }

/-- Writer-style output of the section loop. -/
structure ROut where
  core : RCore
  blocks : List Placed
  log : List String
deriving Repr

/-- `imgWidth = pageWidth - 40` used by `generatePDFReport`. -/
def reportImgWidth : ℚ := qsub pageWidthMm 40

/-- Height at which `generatePDFReport` draws a captured image:
`(canvas.height * imgWidth) / canvas.width` (no clamp). -/
def reportDrawnHeight (cv : Canvas) : ℚ :=
  qdiv (qmul cv.height reportImgWidth) cv.width

/-- Shallow embedding of one iteration of the section loop of
`generatePDFReport`: a missing element or a zero-width/zero-height
bounding rectangle is skipped with a console warning; a capture error is
caught, logged and replaced by an italic red placeholder note (then
`yPosition += 10`); a captured canvas produces a page-break check
against `yPosition + imgHeight + 20 > pageHeight`, the section title,
the image, `yPosition += imgHeight + 15` and `capturedCount++`. -/
def reportSection (env : DomEnv) (c : RCore) (s : RSection) : ROut :=
  match env.element s.id with
  | none => ⟨c, [], ["Element not found: " ++ s.id]⟩
  | some rect =>
    if rect.width = 0 ∨ rect.height = 0 then
      ⟨c, [], ["Element not visible: " ++ s.id]⟩
    else
      match env.capture s.id with
      | .error e =>
        ⟨rbump c 10,
         [rput c (.errorNote ("[Chart could not be captured: " ++ s.title ++ "]"))],
         ["Error adding section " ++ s.title ++ ": " ++ e]⟩
      | .ok cv =>
        let imgH := reportDrawnHeight cv
        let c1 := if qadd (qadd c.y imgH) 20 > pageHeightMm then rNewPage c else c
        let hb := rput c1 (.sectionHeading s.title)
        let c2 := rbump c1 10
        let ib := rput c2 (.image cv.data reportImgWidth imgH)
        let c3 := { rbump c2 (qadd imgH 15) with captured := c2.captured + 1 }
        ⟨c3, [hb, ib], []⟩

/-- Sequential processing of the section list. -/
def reportSections (env : DomEnv) (c : RCore) : List RSection → ROut
  | [] => ⟨c, [], []⟩
  | s :: rest =>
    let a := reportSection env c s
    let b := reportSections env a.core rest
    ⟨b.core, a.blocks ++ b.blocks, a.log ++ b.log⟩

/-- Title and metadata header of `generatePDFReport`: title at `y = 20`
then `+= 15`; when metadata is passed, a date-range line (`+= 7`, only
for a truthy string), a total-documents line (`+= 7`, only for a truthy
count) and a generation timestamp (`+= 10`). -/
def reportHeader (title : String) (md : Option Metadata) (now : String) :
    RCore × List Placed :=
  let c0 : RCore := ⟨20, 0, 0⟩
  let b1 := rput c0 (.docTitle title)
  let c1 := rbump c0 15
  match md with
  | none => (c1, [b1])
  | some m =>
    let stepDr :=
      match m.dateRange with
      | some d =>
        if d ≠ "" then (rbump c1 7, [rput c1 (.metaLine ("Date Range: " ++ d))])
        else (c1, ([] : List Placed))
      | none => (c1, ([] : List Placed))
    let stepTd :=
      match m.totalDocs with
      | some n =>
        if n ≠ 0 then
          (rbump stepDr.1 7,
           [rput stepDr.1 (.metaLine ("Total Documents: " ++ toString n))])
        else (stepDr.1, ([] : List Placed))
      | none => (stepDr.1, ([] : List Placed))
    let bg := rput stepTd.1 (.genLine ("Generated: " ++ now))
    (rbump stepTd.1 10, [b1] ++ stepDr.2 ++ stepTd.2 ++ [bg])

/-- Return value of `generatePDFReport`. -/
inductive PDFResult where
  | success (capturedCount : ℕ)
  | failure (err : String)
deriving Repr, DecidableEq

/-- Observable outcome of one `generatePDFReport` call. -/
structure ReportOut where
  result : PDFResult
  saved : Option String
  alerted : Option String
  pages : ℕ
  blocks : List Placed
  log : List String

/-- Shallow embedding of `generatePDFReport`.  The whole body sits in a
`try`; the only unmodelled external call that can throw after the
per-section loop is `pdf.save`, represented by `saveError`.  When zero
sections were captured, a two-line "No charts available" note is drawn
(at `yPosition` and `yPosition + 10`) and the document is still saved.
On a top-level error the `catch` logs, alerts and returns
`{success: false, error}`. -/
def generatePDFReport (title : String) (sections : List RSection)
    (md : Option Metadata) (env : DomEnv) (saveError : Option String)
    (now : String) : ReportOut :=
  let hdr := reportHeader title md now
  let r := reportSections env hdr.1 sections
  let extra :=
    if r.core.captured = 0 then
      [rput r.core (.noChartsLine "No charts available to export."),
       ⟨.noChartsLine "Please ensure charts are loaded and visible.",
        r.core.page, qadd r.core.y 10⟩]
    else []
  let blocks := hdr.2 ++ r.blocks ++ extra
  match saveError with
  | some e =>
    ⟨.failure e, none, some "Failed to generate PDF report. Please try again.",
     r.core.page + 1, blocks, r.log ++ ["Error generating PDF report: " ++ e]⟩
  | none =>
    ⟨.success r.core.captured,
     some (slug title ++ "_" ++ datePart now ++ ".pdf"), none,
     r.core.page + 1, blocks, r.log⟩

/-! ## Observations on the emitted block stream -/

/-- Titles of the per-section headings drawn by `generatePDFReport`, in
drawing order. -/
def headingsOf (bs : List Placed) : List String :=
  bs.filterMap fun b =>
    match b.kind with
    | .sectionHeading t => some t
    | _ => none

/-- Test for a chart heading drawn by `exportCurrentPanel`. -/
def isChartHeading : BlockKind → Bool
  | .chartHeading _ => true
  | _ => false

/-- A heading is dangling when the block drawn immediately after it sits
on a later page: the heading is the last block of its page, with no body
beneath it. -/
def danglingHeadingB : List Placed → Bool
  | b1 :: b2 :: rest =>
    (isChartHeading b1.kind && decide (b1.page < b2.page))
      || danglingHeadingB (b2 :: rest)
  | _ => false

/-- Test for a block produced from the insight text (headline or
paragraph piece). -/
def isInsightBlock : BlockKind → Bool
  | .insightHeadline _ => true
  | .insightText _ => true
  | _ => false

/-- The insight-derived blocks of a run, in drawing order. -/
def insightBlocksOf (bs : List Placed) : List BlockKind :=
  (bs.map (·.kind)).filter isInsightBlock

/-- Per-block drawing bounds respected by the `exportCurrentPanel`
compositor: insight lines are only drawn at `y ≤ pageHeight - 15` (so a
line is never drawn past the break threshold, hence never split), images
only with their bottom above `pageHeight - 50`, chart headings only at
`y ≤ pageHeight - 120`. -/
def panelPlacedOk (b : Placed) : Bool :=
  match b.kind with
  | .insightText _ => decide (b.y ≤ pageHeightMm - 15)
  | .insightHeadline _ => decide (b.y ≤ pageHeightMm - 15)
  | .chartHeading _ => decide (b.y ≤ pageHeightMm - 120)
  | .image _ _ h => decide (b.y + h ≤ pageHeightMm - 50)
  | _ => true

/-- A section of `generatePDFReport` contributes an image exactly when
its element exists, has a nonzero bounding rectangle, and `html2canvas`
succeeds on it. -/
def capturableB (env : DomEnv) (s : RSection) : Bool :=
  match env.element s.id with
  | none => false
  | some rect =>
    if rect.width = 0 ∨ rect.height = 0 then false
    else
      match env.capture s.id with
      | .ok _ => true
      | .error _ => false

/-- Console warning logged by `generatePDFReport` for a skipped
section. -/
def skipWarning (env : DomEnv) (s : RSection) : String :=
  match env.element s.id with
  | none => "Element not found: " ++ s.id
  | some _ => "Element not visible: " ++ s.id

/-- Erase the run-varying generation-timestamp payload, keeping every
other payload and the geometry of a block. -/
def eraseGen : BlockKind → BlockKind
  | .genLine _ => .genLine ""
  | k => k

/-- Shape of a placed block up to the generation timestamp. -/
def shapeOf (p : Placed) : Placed := ⟨eraseGen p.kind, p.page, p.y⟩

/-! ## Structural lemmas about the section loop of `generatePDFReport` -/

theorem headingsOf_append (xs ys : List Placed) :
    headingsOf (xs ++ ys) = headingsOf xs ++ headingsOf ys := by
  simp [headingsOf, List.filterMap_append]

theorem reportSections_append (env : DomEnv) (xs ys : List RSection) :
    ∀ c : RCore, reportSections env c (xs ++ ys) =
      ⟨(reportSections env (reportSections env c xs).core ys).core,
       (reportSections env c xs).blocks
         ++ (reportSections env (reportSections env c xs).core ys).blocks,
       (reportSections env c xs).log
         ++ (reportSections env (reportSections env c xs).core ys).log⟩ := by
  induction xs with
  | nil => intro c; simp [reportSections]
  | cons x xs ih => intro c; simp [reportSections, ih, List.append_assoc]

theorem reportSection_captured (env : DomEnv) (c : RCore) (s : RSection) :
    (reportSection env c s).core.captured
      = c.captured + (if capturableB env s then 1 else 0) := by
  unfold reportSection capturableB
  cases h : env.element s.id with
  | none => simp
  | some rect =>
    by_cases hz : rect.width = 0 ∨ rect.height = 0
    · simp [hz]
    · cases hc : env.capture s.id with
      | error e => simp [hz, hc, rbump]
      | ok cv =>
        by_cases hpb : qadd (qadd c.y (reportDrawnHeight cv)) 20 > pageHeightMm
        · simp [hz, hc, hpb, rbump, rNewPage]
        · simp [hz, hc, hpb, rbump, rNewPage]

theorem reportSections_captured (env : DomEnv) (ss : List RSection) :
    ∀ c : RCore, (reportSections env c ss).core.captured
      = c.captured + ss.countP (capturableB env) := by
  induction ss with
  | nil => intro c; simp [reportSections]
  | cons s ss ih =>
    intro c
    simp only [reportSections, ih, reportSection_captured, List.countP_cons]
    omega

theorem reportHeader_captured (title : String) (md : Option Metadata) (now : String) :
    (reportHeader title md now).1.captured = 0 := by
  unfold reportHeader
  rcases md with _ | ⟨dr, td⟩
  · simp [rbump]
  · rcases dr with _ | d <;> rcases td with _ | n <;>
      simp only [rbump] <;> split_ifs <;> rfl

theorem reportSection_headings (env : DomEnv) (c : RCore) (s : RSection) :
    headingsOf (reportSection env c s).blocks
      = if capturableB env s then [s.title] else [] := by
  unfold reportSection capturableB
  cases h : env.element s.id with
  | none => simp [headingsOf]
  | some rect =>
    by_cases hz : rect.width = 0 ∨ rect.height = 0
    · simp [hz, headingsOf]
    · cases hc : env.capture s.id with
      | error e => simp [hz, hc, headingsOf, rput]
      | ok cv =>
        by_cases hpb : qadd (qadd c.y (reportDrawnHeight cv)) 20 > pageHeightMm
        · simp [hz, hc, hpb, headingsOf, rput, rbump, rNewPage]
        · simp [hz, hc, hpb, headingsOf, rput, rbump, rNewPage]

theorem reportSections_headings (env : DomEnv) (ss : List RSection) :
    ∀ c : RCore, headingsOf (reportSections env c ss).blocks
      = (ss.filter (capturableB env)).map (·.title) := by
  induction ss with
  | nil => intro c; simp [reportSections, headingsOf]
  | cons s ss ih =>
    intro c
    simp only [reportSections, headingsOf_append, reportSection_headings, ih,
      List.filter_cons]
    split <;> simp

theorem reportSection_skip (env : DomEnv) (c : RCore) (s : RSection)
    (h : env.element s.id = none
      ∨ ∃ r, env.element s.id = some r ∧ (r.width = 0 ∨ r.height = 0)) :
    reportSection env c s = ⟨c, [], [skipWarning env s]⟩ := by
  rcases h with h | ⟨r, hr, hz⟩
  · simp [reportSection, skipWarning, h]
  · simp [reportSection, skipWarning, hr, hz]

theorem reportHeader_headings (title : String) (md : Option Metadata)
    (now : String) : headingsOf (reportHeader title md now).2 = [] := by
  unfold reportHeader
  rcases md with _ | ⟨dr, td⟩
  · simp [headingsOf, rput]
  · rcases dr with _ | d <;> rcases td with _ | n <;>
      simp only [rbump] <;> (try split_ifs) <;> simp [headingsOf, rput]

theorem capturableB_of_error (env : DomEnv) (s : RSection) (rect : Rect)
    (e : String) (helem : env.element s.id = some rect)
    (hvis : ¬(rect.width = 0 ∨ rect.height = 0))
    (hcap : env.capture s.id = .error e) : capturableB env s = false := by
  simp [capturableB, helem, hvis, hcap]

theorem reportSection_error (env : DomEnv) (c : RCore) (s : RSection)
    (rect : Rect) (e : String) (helem : env.element s.id = some rect)
    (hvis : ¬(rect.width = 0 ∨ rect.height = 0))
    (hcap : env.capture s.id = .error e) :
    reportSection env c s =
      ⟨rbump c 10,
       [rput c (.errorNote ("[Chart could not be captured: " ++ s.title ++ "]"))],
       ["Error adding section " ++ s.title ++ ": " ++ e]⟩ := by
  simp [reportSection, helem, hvis, hcap]

theorem reportSections_skip (env : DomEnv) (s : RSection)
    (post : List RSection)
    (h : env.element s.id = none
      ∨ ∃ r, env.element s.id = some r ∧ (r.width = 0 ∨ r.height = 0))
    (c : RCore) :
    reportSections env c (s :: post) =
      ⟨(reportSections env c post).core, (reportSections env c post).blocks,
       skipWarning env s :: (reportSections env c post).log⟩ := by
  simp [reportSections, reportSection_skip env c s h]

theorem headingsOf_extra (c : RCore) :
    headingsOf (if c.captured = 0 then
        [rput c (.noChartsLine "No charts available to export."),
         ⟨.noChartsLine "Please ensure charts are loaded and visible.",
          c.page, qadd c.y 10⟩]
      else []) = [] := by
  split <;> simp [headingsOf, rput]

/-! ## Claims about `generatePDFReport` -/

/-- C1: when the DOM capture of one section throws, `generatePDFReport`
catches and logs the error, returns normally (a success result, no
exception reaches the caller), and every section after the failed one is
still processed and its heading appears in the output document in the
original list order; the failed section contributes no heading. -/
theorem claim1_capture_failure_isolated (env : DomEnv) (title now : String)
    (md : Option Metadata) (pre post : List RSection) (bad : RSection)
    (rect : Rect) (e : String)
    (helem : env.element bad.id = some rect)
    (hvis : ¬(rect.width = 0 ∨ rect.height = 0))
    (hcap : env.capture bad.id = .error e)
    (hpost : ∀ s ∈ post, capturableB env s = true) :
    (∃ n, (generatePDFReport title (pre ++ bad :: post) md env none now).result
        = .success n) ∧
    headingsOf (generatePDFReport title (pre ++ bad :: post) md env none now).blocks
      = (pre.filter (capturableB env)).map (·.title) ++ post.map (·.title) ∧
    ("Error adding section " ++ bad.title ++ ": " ++ e)
      ∈ (generatePDFReport title (pre ++ bad :: post) md env none now).log := by
  refine ⟨⟨_, rfl⟩, ?_, ?_⟩
  · simp only [generatePDFReport, headingsOf_append, headingsOf_extra,
      reportHeader_headings, reportSections_headings, List.filter_append,
      List.filter_cons, capturableB_of_error env bad rect e helem hvis hcap]
    simp [List.filter_eq_self.mpr hpost]
  · simp only [generatePDFReport,
      reportSections_append env pre (bad :: post), reportSections,
      reportSection_error env _ bad rect e helem hvis hcap]
    simp [List.mem_append]

/-- C9: `generatePDFReport` is total: it returns a success result whose
count is exactly the number of sections whose element exists, is
visible, and whose capture succeeded, unless a top-level error occurs,
in which case the catch block yields a failure result. -/
theorem claim9_report_total (title : String) (sections : List RSection)
    (md : Option Metadata) (env : DomEnv) (saveError : Option String)
    (now : String) :
    (generatePDFReport title sections md env saveError now).result =
      match saveError with
      | none => .success (sections.countP (capturableB env))
      | some e => .failure e := by
  cases saveError with
  | none =>
    simp [generatePDFReport, reportSections_captured, reportHeader_captured]
  | some e => simp [generatePDFReport]

/-- C10: a section whose element is missing, or whose bounding rectangle
has zero width or height, contributes nothing to the output document and
does not change the result (in particular `capturedCount`); a console
warning is logged and the remaining sections are processed unchanged. -/
theorem claim10_invisible_section_skipped (env : DomEnv) (title now : String)
    (md : Option Metadata) (saveErr : Option String)
    (pre post : List RSection) (s : RSection)
    (h : env.element s.id = none
      ∨ ∃ r, env.element s.id = some r ∧ (r.width = 0 ∨ r.height = 0)) :
    (generatePDFReport title (pre ++ s :: post) md env saveErr now).blocks
      = (generatePDFReport title (pre ++ post) md env saveErr now).blocks ∧
    (generatePDFReport title (pre ++ s :: post) md env saveErr now).result
      = (generatePDFReport title (pre ++ post) md env saveErr now).result ∧
    skipWarning env s
      ∈ (generatePDFReport title (pre ++ s :: post) md env saveErr now).log := by
  have hskip := reportSections_skip env s post h
  refine ⟨?_, ?_, ?_⟩ <;>
    cases saveErr <;>
      simp [generatePDFReport, reportSections_append env pre (s :: post),
        reportSections_append env pre post, hskip, List.mem_append]

/-! ## Concrete fixtures used by witnesses and counterexamples -/

/-- A small DOM with three chart elements; capture of `sent` throws. -/
def envC1 : DomEnv where
  element := fun id =>
    if id = "vol" then some ⟨800, 600⟩
    else if id = "sent" then some ⟨800, 600⟩
    else if id = "kw" then some ⟨800, 600⟩
    else none
  capture := fun id =>
    if id = "sent" then .error "render failed"
    else .ok ⟨800, 400, "bitmap"⟩

def secVol : RSection := ⟨"vol", "Volume"⟩
def secSent : RSection := ⟨"sent", "Sentiment"⟩
def secKw : RSection := ⟨"kw", "Keywords"⟩
def secGhost : RSection := ⟨"ghost", "Ghost Chart"⟩

theorem claim1_witness :
    envC1.element secSent.id = some ⟨800, 600⟩ ∧
    ¬((Rect.mk 800 600).width = 0 ∨ (Rect.mk 800 600).height = 0) ∧
    envC1.capture secSent.id = .error "render failed" ∧
    (∀ s ∈ [secKw], capturableB envC1 s = true) ∧
    ((∃ n, (generatePDFReport "Report" ([secVol] ++ secSent :: [secKw]) none
        envC1 none "2026-10-11T00:00:00Z").result = .success n) ∧
     headingsOf (generatePDFReport "Report" ([secVol] ++ secSent :: [secKw])
        none envC1 none "2026-10-11T00:00:00Z").blocks
       = ([secVol].filter (capturableB envC1)).map (·.title)
           ++ [secKw].map (·.title) ∧
     ("Error adding section " ++ secSent.title ++ ": " ++ "render failed")
       ∈ (generatePDFReport "Report" ([secVol] ++ secSent :: [secKw]) none
            envC1 none "2026-10-11T00:00:00Z").log) :=
  ⟨rfl, by decide, rfl, by decide,
   claim1_capture_failure_isolated envC1 "Report" "2026-10-11T00:00:00Z" none
     [secVol] [secKw] secSent ⟨800, 600⟩ "render failed" rfl (by decide) rfl
     (by decide)⟩

theorem claim10_witness :
    (envC1.element secGhost.id = none
      ∨ ∃ r, envC1.element secGhost.id = some r
          ∧ (r.width = 0 ∨ r.height = 0)) ∧
    ((generatePDFReport "Report" ([secVol] ++ secGhost :: [secKw]) none envC1
        none "now").blocks
      = (generatePDFReport "Report" ([secVol] ++ [secKw]) none envC1 none
          "now").blocks ∧
     (generatePDFReport "Report" ([secVol] ++ secGhost :: [secKw]) none envC1
        none "now").result
      = (generatePDFReport "Report" ([secVol] ++ [secKw]) none envC1 none
          "now").result ∧
     skipWarning envC1 secGhost
      ∈ (generatePDFReport "Report" ([secVol] ++ secGhost :: [secKw]) none
          envC1 none "now").log) :=
  ⟨Or.inl rfl,
   claim10_invisible_section_skipped envC1 "Report" "now" none none
     [secVol] [secKw] secGhost (Or.inl rfl)⟩

/-! ## Claims about the no-section / zero-capture paths and the insight
fallback -/

/-- C4 (amended): when no visible chart container exists,
`exportCurrentPanel` alerts with a user-visible message and produces no
file; `generatePDFReport`, in contrast, saves a document even for an
empty section list (zero captures), with an in-document note instead of
suppressing the file. -/
theorem claim4_no_sections (wrap : String → List String)
    (containers : List Container) (tabText dateFrom dateTo : Option String)
    (now : String) (title : String) (md : Option Metadata) (env : DomEnv)
    (now2 : String)
    (h : ∀ c ∈ containers, ¬(0 < c.height ∧ 0 < c.width)) :
    (exportCurrentPanel wrap containers tabText dateFrom dateTo now).alerted
      = some "No active panel found. Please make sure you are viewing a tab with charts." ∧
    (exportCurrentPanel wrap containers tabText dateFrom dateTo now).saved
      = none ∧
    (generatePDFReport title [] md env none now2).saved
      = some (slug title ++ "_" ++ datePart now2 ++ ".pdf") := by
  have hf : containers.find?
      (fun c => decide (0 < c.height) && decide (0 < c.width)) = none := by
    rw [List.find?_eq_none]
    intro a ha
    simpa using h a ha
  refine ⟨?_, ?_, ?_⟩
  · simp [exportCurrentPanel, hf]
  · simp [exportCurrentPanel, hf]
  · simp [generatePDFReport]

theorem claim4_witness :
    (∀ c ∈ [(⟨0, 5, []⟩ : Container)], ¬(0 < c.height ∧ 0 < c.width)) ∧
    ((exportCurrentPanel (fun s => [s]) [⟨0, 5, []⟩] none none none "t").alerted
       = some "No active panel found. Please make sure you are viewing a tab with charts." ∧
     (exportCurrentPanel (fun s => [s]) [⟨0, 5, []⟩] none none none "t").saved
       = none ∧
     (generatePDFReport "Report" [] none envC1 none
        "2026-10-11T00:00:00Z").saved
       = some (slug "Report" ++ "_" ++ datePart "2026-10-11T00:00:00Z"
           ++ ".pdf")) :=
  ⟨by decide,
   claim4_no_sections (fun s => [s]) [⟨0, 5, []⟩] none none none "t"
     "Report" none envC1 "2026-10-11T00:00:00Z" (by decide)⟩

/-- C4 (counterexample): an export invocation that finds zero sections
still produces an output file: `generatePDFReport` on the empty section
list captures nothing, draws a "No charts available to export." note
into the document, saves it under the usual name, and reports success —
contradicting the claim that no file is produced. -/
theorem claim4_counterexample :
    (generatePDFReport "My Report" [] none envC1 none
       "2026-10-11T12:00:00.000Z").saved = some "My_Report_2026-10-11.pdf" ∧
    (generatePDFReport "My Report" [] none envC1 none
       "2026-10-11T12:00:00.000Z").result = .success 0 ∧
    BlockKind.noChartsLine "No charts available to export."
      ∈ ((generatePDFReport "My Report" [] none envC1 none
           "2026-10-11T12:00:00.000Z").blocks.map (·.kind)) := by
  refine ⟨by decide, by decide, by decide⟩

/-- C5 (amended): a network or service error in the insight fetch is
swallowed and replaced by the fixed fallback string "Unable to generate
insights at this time." (the string "Analysis unavailable for this
chart." is the fallback for an empty or missing `insights` field of a
successful response, not for errors). -/
theorem claim5_fallback (e : String) :
    generateAIInsights (.error e)
      = "Unable to generate insights at this time."
    ∧ generateAIInsights (.ok none)
      = "Analysis unavailable for this chart." := ⟨rfl, rfl⟩

/-- C5 (counterexample): the error-path fallback string is not the
"analysis unavailable" string the claim names — that wording is the
fallback of the empty-success path. -/
theorem claim5_counterexample :
    generateAIInsights (.error "Network Error")
      = "Unable to generate insights at this time." ∧
    generateAIInsights (.error "Network Error") ≠ "analysis unavailable" ∧
    generateAIInsights (.error "Network Error")
      ≠ "Analysis unavailable for this chart." := by
  refine ⟨rfl, by decide, by decide⟩

/-! ## Claims about the capture hide/restore step and image scaling -/

theorem restore_after_hide (ds : List String) :
    restoreButtons ds (hideButtons ds)
      = ds.map fun d => if d ≠ "none" then "" else d := by
  induction ds with
  | nil => rfl
  | cons d ds ih =>
    simp only [restoreButtons, hideButtons] at ih
    simp only [restoreButtons, hideButtons, List.map_cons,
      List.zipWith_cons_cons, ih]
    by_cases hd : d = "none" <;> simp [hd]

/-- C6 (amended): the export buttons are hidden before rasterization; on
a successful capture every previously visible button has its display set
to the empty string (not to its exact pre-capture value), while on a
capture failure the restore pass is skipped and every previously visible
button is left with display "none". -/
theorem claim6_hide_restore (ds : List String) (cap : Except String Canvas) :
    captureButtons ds cap =
      ds.map fun d =>
        if d ≠ "none" then
          (match cap with | .ok _ => "" | .error _ => "none")
        else d := by
  cases cap with
  | ok cv => simp [captureButtons, restore_after_hide]
  | error e => simp [captureButtons, hideButtons]

def btnChart : ChartEl :=
  ⟨some 1, false, some "Volume", [""], .error "canvas failed", .ok (some "text")⟩

/-- C6 (counterexample): in a run of `exportCurrentPanel` with one chart
whose capture throws, the export button that was visible before the
capture (inline display the empty string) ends the section with display
"none": its visibility is not restored on the failure path. -/
theorem claim6_counterexample :
    (exportCurrentPanel (fun s => [s]) [⟨1, 1, [btnChart]⟩] none none none
       "t").btns = [["none"]] ∧
    btnChart.buttons = [""] ∧ ("none" : String) ≠ "" := by
  refine ⟨by decide, rfl, by decide⟩

/-- C8 (amended): `generatePDFReport` always scales a captured image to
the printable width preserving the intrinsic aspect ratio, while
`exportCurrentPanel` preserves it exactly when the width-proportional
height does not exceed the 120mm clamp. -/
theorem claim8_aspect (cv : Canvas) (hw : 0 < cv.width) :
    reportDrawnHeight cv * cv.width = cv.height * reportImgWidth ∧
    (cv.height * panelImgWidth / cv.width ≤ 120 →
      panelDrawnHeight cv * cv.width = cv.height * panelImgWidth) := by
  constructor
  · unfold reportDrawnHeight
    rw [qdiv_eq, qmul_eq, div_mul_cancel₀ _ (ne_of_gt hw)]
  · intro hle
    unfold panelDrawnHeight ratMin
    rw [qdiv_eq, qmul_eq, if_pos hle, div_mul_cancel₀ _ (ne_of_gt hw)]

theorem claim8_witness :
    (0 : ℚ) < (Canvas.mk 100 50 "bitmap").width ∧
    (reportDrawnHeight ⟨100, 50, "bitmap"⟩ * (Canvas.mk 100 50 "bitmap").width
       = (Canvas.mk 100 50 "bitmap").height * reportImgWidth ∧
     ((Canvas.mk 100 50 "bitmap").height * panelImgWidth
         / (Canvas.mk 100 50 "bitmap").width ≤ 120 →
       panelDrawnHeight ⟨100, 50, "bitmap"⟩ * (Canvas.mk 100 50 "bitmap").width
         = (Canvas.mk 100 50 "bitmap").height * panelImgWidth)) :=
  ⟨by norm_num, claim8_aspect ⟨100, 50, "bitmap"⟩ (by norm_num)⟩

/-- C8 (counterexample): a tall canvas (100 x 200 pixels) is drawn by
`exportCurrentPanel` at the 120mm clamp instead of its proportional
360mm, so the drawn height over drawn width no longer equals the
intrinsic pixel ratio. -/
theorem claim8_counterexample :
    panelDrawnHeight ⟨100, 200, "tall"⟩ = 120 ∧
    panelDrawnHeight ⟨100, 200, "tall"⟩ / panelImgWidth
      ≠ (Canvas.mk 100 200 "tall").height / (Canvas.mk 100 200 "tall").width := by
  constructor
  · decide
  · rw [show panelDrawnHeight ⟨100, 200, "tall"⟩ = (120 : ℚ) from by decide,
      show panelImgWidth = (180 : ℚ) from by decide]
    norm_num

/-! ## Page-break discipline of the `exportCurrentPanel` compositor -/

theorem panelDrawnHeight_le (cv : Canvas) : panelDrawnHeight cv ≤ 120 := by
  unfold panelDrawnHeight ratMin
  split
  · assumption
  · exact le_refl _

theorem drawWrapped_ok (ls : List String) : ∀ c : Core,
    ((drawWrapped c ls).2.all panelPlacedOk) = true := by
  induction ls with
  | nil => intro c; simp [drawWrapped]
  | cons tl rest ih =>
    intro c
    simp only [drawWrapped, List.all_cons, Bool.and_eq_true]
    refine ⟨?_, ih _⟩
    by_cases hy : c.y > qsub pageHeightMm 15
    · simp only [if_pos hy]
      simp [put, newPage, panelPlacedOk, pageHeightMm]
      norm_num
    · simp only [if_neg hy]
      push_neg at hy
      rw [qsub_eq] at hy
      simp [put, panelPlacedOk, decide_eq_true_eq]
      exact hy

theorem drawLine_ok (wrap : String → List String) (c : Core) (line : String) :
    ((drawLine wrap c line).2.all panelPlacedOk) = true := by
  unfold drawLine
  by_cases ht : jsTrim line = ""
  · simp [ht]
  · by_cases hh : isHeaderLine (jsTrim line)
    · simp only [ht, hh, if_true, if_false, if_pos, if_neg, not_false_iff]
      by_cases hy : c.y > qsub pageHeightMm 15
      · simp only [if_pos hy]
        simp [put, newPage, panelPlacedOk, pageHeightMm, ht, hh]
        norm_num
      · simp only [if_neg hy]
        push_neg at hy
        rw [qsub_eq] at hy
        simp [put, panelPlacedOk, ht, hh, decide_eq_true_eq]
        exact hy
    · simp [ht, hh, drawWrapped_ok]

theorem drawLines_ok (wrap : String → List String) (ls : List String) :
    ∀ c : Core, ((drawLines wrap c ls).2.all panelPlacedOk) = true := by
  induction ls with
  | nil => intro c; simp [drawLines]
  | cons l ls ih =>
    intro c
    simp [drawLines, List.all_append, drawLine_ok, ih]

theorem heading_put_ok (c0 : Core) (t : String) :
    panelPlacedOk (put (if c0.y > qsub pageHeightMm 120 then newPage c0 else c0)
      (.chartHeading t)) = true := by
  by_cases h : c0.y > qsub pageHeightMm 120
  · rw [if_pos h]
    simp [put, newPage, panelPlacedOk, decide_eq_true_eq, pageHeightMm]
    norm_num
  · rw [if_neg h]
    push_neg at h
    rw [qsub_eq] at h
    simp [put, panelPlacedOk, decide_eq_true_eq]
    exact h

theorem image_put_ok (c2 : Core) (cv : Canvas) :
    panelPlacedOk (put
      (if qadd c2.y (panelDrawnHeight cv) > qsub pageHeightMm 50 then newPage c2
       else c2)
      (.image cv.data panelImgWidth (panelDrawnHeight cv))) = true := by
  have hle := panelDrawnHeight_le cv
  by_cases h : qadd c2.y (panelDrawnHeight cv) > qsub pageHeightMm 50
  · rw [if_pos h]
    simp [put, newPage, panelPlacedOk, decide_eq_true_eq, pageHeightMm]
    norm_num
    linarith
  · rw [if_neg h]
    push_neg at h
    rw [qadd_eq, qsub_eq] at h
    simp [put, panelPlacedOk, decide_eq_true_eq]
    exact h

theorem grayRect_ok (c : Core) (yv : ℚ) :
    panelPlacedOk (putAt c .grayRect yv) = true := rfl

theorem insightsHeader_ok (c : Core) :
    panelPlacedOk (put c .insightsHeader) = true := rfl

theorem separator_ok (c : Core) :
    panelPlacedOk (put c .separator) = true := rfl

theorem panelChartDraw_ok (wrap : String → List String) (ch : ChartEl)
    (c0 : Core) : ((panelChartDraw wrap c0 ch).blocks.all panelPlacedOk) = true := by
  unfold panelChartDraw
  cases ch.capture with
  | error e => simp [heading_put_ok]
  | ok cv =>
    simp [List.all_append, List.all_cons, heading_put_ok, image_put_ok,
      drawLines_ok, grayRect_ok, insightsHeader_ok, separator_ok]

theorem panelChart_ok (wrap : String → List String) (ch : ChartEl) :
    ∀ c : Core, ((panelChart wrap c ch).blocks.all panelPlacedOk) = true := by
  intro c
  unfold panelChart
  split
  · simp
  · split
    · simp
    · split
      · simp
      · exact panelChartDraw_ok wrap ch _

theorem runCharts_ok (wrap : String → List String) (chs : List ChartEl) :
    ∀ c : Core, ((runCharts wrap c chs).blocks.all panelPlacedOk) = true := by
  induction chs with
  | nil => intro c; simp [runCharts]
  | cons ch chs ih =>
    intro c
    simp [runCharts, List.all_append, panelChart_ok, ih]

theorem panelHeader_ok (tabName : String) (hasDR : Bool) (df dt now : String) :
    ((panelHeader tabName hasDR df dt now).2.all panelPlacedOk) = true := by
  cases hasDR <;> simp [panelHeader, put, bump, panelPlacedOk]

/-- C3 (amended): the `exportCurrentPanel` compositor page-breaks before
every block it measures: an insight line (headline or wrapped paragraph
piece) is only drawn at `y ≤ pageHeight - 15`, so a single line of text
is never split across a page boundary; an image is only drawn when its
clamped height still fits above `pageHeight - 50`; a chart heading is
only drawn at `y ≤ pageHeight - 120`.  (The heading check uses that
fixed threshold rather than the measured height of the following
blocks, so a heading can still be orphaned at the bottom of a page —
see the counterexample.) -/
theorem claim3_page_break_policy (wrap : String → List String)
    (containers : List Container) (tabText dateFrom dateTo : Option String)
    (now : String) :
    ((exportCurrentPanel wrap containers tabText dateFrom dateTo now).blocks.all
      panelPlacedOk) = true := by
  unfold exportCurrentPanel
  cases hf : containers.find?
      (fun c => decide (0 < c.height) && decide (0 < c.width)) with
  | none => simp
  | some cont => simp [List.all_append, runCharts_ok, panelHeader_ok]

def chVolume : ChartEl :=
  ⟨some 1, false, some "Volume", [], .ok ⟨900, 200, "imgA"⟩, .ok (some " ")⟩

def chSentiment : ChartEl :=
  ⟨some 2, false, some "Sentiment", [], .ok ⟨100, 1000, "imgB"⟩,
   .ok (some " ")⟩

/-- C3 (counterexample): a run with two successfully captured charts in
which the second heading is drawn at `y = 140` of page 0 (the fixed
`pageHeight - 120` pre-check passes) but the following image triggers a
page break, so the heading is left as the last block of its page with no
body beneath it — the claimed "never leave a heading at the bottom of a
page with no body block beneath it" fails. -/
theorem claim3_counterexample :
    danglingHeadingB (exportCurrentPanel (fun s => [s])
        [⟨1, 1, [chVolume, chSentiment]⟩] none none none "t").blocks
      = true := by decide

/-! ## Claims about the insight marker handling (C2) -/

theorem stripStar_no_star (cs : List Char) : '*' ∉ stripStar cs := by
  induction cs with
  | nil => simp [stripStar]
  | cons c cs ih =>
    by_cases h : c = '*'
    · simpa [stripStar, h] using ih
    · simp only [stripStar, if_neg h, List.mem_cons, not_or]
      exact ⟨fun hc => h hc.symm, ih⟩

theorem dropLeadingWs_sublist (cs : List Char) :
    List.Sublist (dropLeadingWs cs) cs := by
  induction cs with
  | nil => simp [dropLeadingWs]
  | cons c cs ih =>
    simp only [dropLeadingWs]
    split
    · exact ih.trans (List.sublist_cons_self c cs)
    · exact List.Sublist.refl _

theorem cleanInsights_no_star (s : String) : '*' ∉ (cleanInsights s).data := by
  unfold cleanInsights jsTrim
  intro hmem
  have hm : '*' ∈ dropLeadingWs
      (dropLeadingWs (stripStar (stripDoubleStar s.data)).reverse).reverse :=
    hmem
  have h1 := (dropLeadingWs_sublist _).mem hm
  rw [List.mem_reverse] at h1
  have h2 := (dropLeadingWs_sublist _).mem h1
  rw [List.mem_reverse] at h2
  exact stripStar_no_star _ h2

def markerChart : ChartEl :=
  ⟨some 1, false, some "Volume", [], .ok ⟨100, 100, "img"⟩,
   .ok (some "**Header:**\n- **bullet one**\n- bullet *two*")⟩

def bulletChart : ChartEl :=
  ⟨some 1, false, some "Volume", [], .ok ⟨100, 100, "img"⟩,
   .ok (some "Header:\n- bullet one\n- bullet two")⟩

/-- C2 (amended): the compositor removes asterisk markers (never showing
one in any rendered insight block) and renders a short trailing-colon
line as a distinct header block; a line with a leading dash, however, is
rendered as an ordinary wrapped text block that keeps the literal dash
character, since the layout loop has no list-item case. -/
theorem claim2_markers :
    insightBlocksOf (exportCurrentPanel (fun t => [t]) [⟨1, 1, [markerChart]⟩]
        none none none "t").blocks
      = [.insightHeadline "Header:", .insightText "- bullet one",
         .insightText "- bullet two"] ∧
    ∀ s : String, '*' ∉ (cleanInsights s).data :=
  ⟨by decide, cleanInsights_no_star⟩

/-- C2 (counterexample): on the input named by the claim, the two bullet
lines are rendered as plain text blocks that still contain the literal
leading dash, not as list-item blocks with the bullet stripped. -/
theorem claim2_counterexample :
    insightBlocksOf (exportCurrentPanel (fun t => [t]) [⟨1, 1, [bulletChart]⟩]
        none none none "t").blocks
      = [.insightHeadline "Header:", .insightText "- bullet one",
         .insightText "- bullet two"] ∧
    ("- bullet one".data.contains '-') = true := by
  refine ⟨by decide, by decide⟩

/-! ## Determinism of the compositor (C7) -/

theorem panelHeader_core (tabName : String) (hasDR : Bool)
    (df dt now1 now2 : String) :
    (panelHeader tabName hasDR df dt now1).1
      = (panelHeader tabName hasDR df dt now2).1 := by
  cases hasDR <;> simp [panelHeader]

theorem panelHeader_shape (tabName : String) (hasDR : Bool)
    (df dt now1 now2 : String) :
    (panelHeader tabName hasDR df dt now1).2.map shapeOf
      = (panelHeader tabName hasDR df dt now2).2.map shapeOf := by
  cases hasDR <;> simp [panelHeader, shapeOf, eraseGen, put, bump]

/-- C7: the compositor is deterministic in everything except the drawn
generation timestamp: two runs of `exportCurrentPanel` on the identical
container/chart list (hence identical captured images), identical
insight responses, identical wrap function and identical date-range
parameters, differing only in the clock reading, produce the same page
count and the same ordered block stream up to the timestamp payload of
the generated-at line. -/
theorem claim7_deterministic (wrap : String → List String)
    (containers : List Container) (tabText dateFrom dateTo : Option String)
    (now1 now2 : String) :
    (exportCurrentPanel wrap containers tabText dateFrom dateTo now1).pages
      = (exportCurrentPanel wrap containers tabText dateFrom dateTo now2).pages ∧
    (exportCurrentPanel wrap containers tabText dateFrom dateTo now1).blocks.map
        shapeOf
      = (exportCurrentPanel wrap containers tabText dateFrom dateTo
          now2).blocks.map shapeOf := by
  unfold exportCurrentPanel
  cases hf : containers.find?
      (fun c => decide (0 < c.height) && decide (0 < c.width)) with
  | none => simp
  | some cont =>
    simp only
    constructor
    · rw [panelHeader_core _ _ _ _ now1 now2]
    · rw [List.map_append, List.map_append,
        panelHeader_shape _ _ _ _ now1 now2,
        panelHeader_core _ _ _ _ now1 now2]

end RegAnalytics
